import Mathlib

/-!
Verification of the ScopeSmith session/workflow orchestration core.

The definitions below are a shallow embedding of the Python sources:
  * src/lambda/session_manager/app.py  (session record, status updates,
    the Strategy B event-stream loop, retries, reconciliation, HTTP routes)
  * src/lambda/cost_calculator/app.py, src/lambda/powerpoint_generator/app.py,
    src/lambda/sow_generator/app.py (the leaf steps' DynamoDB side effects)

DynamoDB is modelled as an association list from session id to the session
record; each Lambda handler becomes a pure function on that state.  Wall-clock
times (Python time.time) are modelled as integer millisecond counts.
-/

namespace ScopeSmith

/-- An entry of the `agent_events` audit log, mirroring the dictionaries the
session manager appends in `invoke_bedrock_agent` (the `type` key becomes the
constructor). Timestamps are dropped: no claim inspects them. -/
inductive AgentEvent where
  | chunk (content : String)
  | tool_call (action_group function_name : String)
  | tool_response (content : String)
  | final_response (content : String)
  | reasoning (content : String)
  | warning (content : String)
deriving DecidableEq, Repr

/-- The DynamoDB session record created by `create_session` and mutated by the
handlers.  `document_urls` models the `L`-typed attribute (`[]` = absent, as
`if_not_exists(document_urls, :empty)` treats it); `cost_data = none` models an
absent attribute; `agent_events` holds the decoded JSON list. -/
structure Session where
  session_id : String
  status : String
  client_name : String
  project_name : String
  industry : String
  duration : String
  team_size : Nat
  requirements_data : String
  current_stage : String
  progress : Int
  error_message : Option String
  cost_data : Option String
  document_urls : List String
  agent_events : List AgentEvent
  created_at : String
  updated_at : String
deriving DecidableEq, Repr

/-- `create_session` (src/lambda/session_manager/app.py lines 16-43): the
initial record written by `put_item`, status PENDING, progress 0. -/
def create_session (session_id now client_name project_name industry
    requirements duration : String) (team_size : Nat) : Session :=
  { session_id := session_id
    status := "PENDING"
    client_name := client_name
    project_name := project_name
    industry := industry
    duration := duration
    team_size := team_size
    requirements_data := requirements
    current_stage := "Initializing"
    progress := 0
    error_message := none
    cost_data := none
    document_urls := []
    agent_events := []
    created_at := now
    updated_at := now }

/-- `update_session_status` (session_manager lines 98-127): always writes
`status` and `updated_at`; writes `current_stage` when a (truthy) stage is
given, `progress` when given (`is not None`), `error_message` when a (truthy)
message is given. -/
def update_session_status (s : Session) (now status : String)
    (stage : Option String) (progress : Option Int)
    (error_message : Option String) : Session :=
  { s with
    status := status
    updated_at := now
    current_stage := stage.getD s.current_stage
    progress := progress.getD s.progress
    error_message := (error_message.map some).getD s.error_message }

/-! ## Leaf step handlers (DynamoDB effects on the session record)

Each step Lambda performs two `update_item` calls on the session: an initial
status marker, and a final write of its result.  The generative/bedrock content
only affects the rendered artifact, never the session fields beyond what is
shown, so it enters the model as the already-produced payload/URL. -/

/-- `cost_calculator` handler DB effects (src/lambda/cost_calculator/app.py
lines 132-141 and 247-257): sets status CALCULATING_COSTS, then writes
`cost_data` and status COSTS_CALCULATED. -/
def cost_calculator_step (s : Session) (cost_json now : String) : Session :=
  let s1 := { s with status := "CALCULATING_COSTS", updated_at := now }
  { s1 with cost_data := some cost_json
            status := "COSTS_CALCULATED"
            updated_at := now }

/-- `powerpoint_generator` handler DB effects (src/lambda/powerpoint_generator/
app.py lines 60-69 and 265-276): sets status GENERATING_POWERPOINT, then
appends the presigned URL via `list_append(if_not_exists(document_urls,
:empty), :url)` and sets status POWERPOINT_GENERATED. -/
def powerpoint_generator_step (s : Session) (presigned_url now : String) : Session :=
  let s1 := { s with status := "GENERATING_POWERPOINT", updated_at := now }
  { s1 with document_urls := s1.document_urls ++ [presigned_url]
            status := "POWERPOINT_GENERATED"
            updated_at := now }

/-- `sow_generator` handler DB effects (src/lambda/sow_generator/app.py lines
64-73 and 284-295): sets status GENERATING_SOW, then appends the presigned URL
via `list_append(if_not_exists(document_urls, :empty), :url)` and sets status
SOW_GENERATED. -/
def sow_generator_step (s : Session) (presigned_url now : String) : Session :=
  let s1 := { s with status := "GENERATING_SOW", updated_at := now }
  { s1 with document_urls := s1.document_urls ++ [presigned_url]
            status := "SOW_GENERATED"
            updated_at := now }

/-! ## Strategy B: the Bedrock agent event stream loop

`invoke_bedrock_agent` (session_manager lines 129-465) consumes the
`completion` EventStream.  Each stream element is one of the shapes the
if/elif chain tests for; `returnControl` stands for an "awaiting user input"
terminal signal, for which the chain has no branch. -/

inductive StreamEvent where
  | chunk (text : String)
  | toolCall (action_group function_name : String)
  | toolResult (text : String)
  | finalResponse (text : String)
  | rationale (text : String)
  | throttling
  | internalServerError (msg : String)
  | validationError (msg : String)
  | returnControl
deriving DecidableEq, Repr

/-- The `stage_progress` dict (session_manager lines 227-233). -/
def stage_progress (name : String) : Option Int :=
  if name = "RequirementsAnalyzer" then some 30
  else if name = "CostCalculator" then some 50
  else if name = "TemplateRetriever" then some 60
  else if name = "PowerPointGenerator" then some 80
  else if name = "SOWGenerator" then some 95
  else none

/-- `update_interval` (line 224): DynamoDB is updated at most once per second
from the chunk/tool-call branches.  Wall-clock times are modelled in integer
milliseconds (the source's 1.0-second float interval becomes 1000). -/
def update_interval : ℤ := 1000

/-- Mutable state of the EventStream loop (session_manager lines 218-235)
together with an audit of the DynamoDB writes the loop performs:
`eventWrites` logs each rate-limited `agent_events` write (with the wall-clock
time at which it happened), `progressWrites` logs every `progress` value
passed to `update_session_status`, and `finalEventsWrite` logs the
unconditional `agent_events` write of the post-stream reconciliation. -/
structure StreamState where
  session : Session
  full_response : String
  tool_calls : List AgentEvent
  action_group_invocations : Nat
  chunks_received : Nat
  agent_events : List AgentEvent
  last_update_time : ℤ
  eventWrites : List (ℤ × List AgentEvent)
  progressWrites : List Int
  finalEventsWrite : Option (List AgentEvent)
deriving DecidableEq, Repr

/-- One iteration of the `for event in event_stream` loop (lines 238-371),
given the wall-clock time `t` at which the event is handled. A raised
exception becomes `Except.error`. -/
def processEvent (now : String) (st : StreamState) (t : ℤ) (ev : StreamEvent) :
    Except String StreamState :=
  match ev with
  | .chunk text =>
      let st := { st with
        chunks_received := st.chunks_received + 1
        full_response := st.full_response ++ text
        agent_events := st.agent_events ++ [AgentEvent.chunk text] }
      if update_interval < t - st.last_update_time then
        .ok { st with
          session := { st.session with agent_events := st.agent_events, updated_at := now }
          eventWrites := st.eventWrites ++ [(t, st.agent_events)]
          last_update_time := t }
      else .ok st
  | .toolCall ag fn =>
      let invocations := st.action_group_invocations + 1
      let progress : Int := (stage_progress ag).getD ((15 + invocations * 10 : Nat) : Int)
      let s1 := update_session_status st.session now "PROCESSING"
        (some ("Running " ++ ag)) (some progress) none
      let ev' := AgentEvent.tool_call ag fn
      let st := { st with
        action_group_invocations := invocations
        session := s1
        progressWrites := st.progressWrites ++ [progress]
        agent_events := st.agent_events ++ [ev']
        tool_calls := st.tool_calls ++ [ev'] }
      if update_interval < t - st.last_update_time then
        .ok { st with
          session := { st.session with agent_events := st.agent_events, current_stage := ag, updated_at := now }
          eventWrites := st.eventWrites ++ [(t, st.agent_events)]
          last_update_time := t }
      else .ok st
  | .toolResult text =>
      .ok { st with agent_events := st.agent_events ++ [AgentEvent.tool_response text] }
  | .finalResponse text =>
      .ok { st with agent_events := st.agent_events ++ [AgentEvent.final_response text] }
  | .rationale text =>
      .ok { st with agent_events := st.agent_events ++ [AgentEvent.reasoning text] }
  | .throttling =>
      .ok { st with agent_events :=
        st.agent_events ++ [AgentEvent.warning "Rate limit reached, slowing down..."] }
  | .internalServerError msg =>
      .error ("Bedrock agent internal error: " ++ msg)
  | .validationError msg =>
      .error ("Bedrock agent validation error: " ++ msg)
  | .returnControl =>
      .ok st

/-- The whole `for event in event_stream` loop over timestamped events.  On a
raised exception the state at the raise point is returned with the message. -/
def processStream (now : String) (st : StreamState) :
    List (ℤ × StreamEvent) → Except (StreamState × String) StreamState
  | [] => .ok st
  | (t, ev) :: rest =>
      match processEvent now st t ev with
      | .ok st' => processStream now st' rest
      | .error msg => .error (st, msg)

/-- The error message of the reconciliation's ERROR branch (line 434). -/
def noDocumentsMessage : String :=
  "Agent workflow completed but no documents were generated. Please check the PowerPoint and SOW generator logs."

/-- The post-stream reconciliation (session_manager lines 398-451): re-read the
session record, and transition to COMPLETED only when `document_urls` is
non-empty, otherwise to ERROR.  `document_urls_read` is the list found by the
re-read (generator steps may have appended to it during the run); both
branches also write the accumulated `agent_events`. -/
def finalUpdate (now : String) (document_urls_read : List String)
    (st : StreamState) : StreamState :=
  if 0 < document_urls_read.length then
    let s1 := update_session_status { st.session with document_urls := document_urls_read }
      now "COMPLETED" (some "Workflow completed") (some 100) none
    { st with
      session := { s1 with agent_events := st.agent_events, updated_at := now }
      finalEventsWrite := some st.agent_events }
  else
    let s1 := update_session_status { st.session with document_urls := document_urls_read }
      now "ERROR" (some "Document generation failed") none (some noDocumentsMessage)
    { st with
      session := { s1 with agent_events := st.agent_events, updated_at := now }
      finalEventsWrite := some st.agent_events }

/-- The `except` branch wrapping the loop (lines 373-396): mark the session
ERROR with the stream error and flush the buffered events, then re-raise. -/
def handleStreamError (now : String) (st : StreamState) (msg : String) : StreamState :=
  let s1 := update_session_status st.session now "ERROR"
    (some "Agent workflow failed") none (some msg)
  { st with session := { s1 with agent_events := st.agent_events, updated_at := now } }

/-! ## Strategy B: dispatch retry loop -/

/-- Outcome of one `bedrock_agent_runtime.invoke_agent` attempt. -/
inductive DispatchOutcome where
  | success
  | throttle
  | otherError (msg : String)
deriving DecidableEq, Repr

/-- Result of the retry loop: how many `invoke_agent` calls were made, the
`time.sleep` delays (seconds) taken between attempts, and whether a call
succeeded (`false` means the exception propagated). -/
structure RetryResult where
  attempts : Nat
  delays : List Nat
  succeeded : Bool
deriving DecidableEq, Repr

/-- Body of `for attempt in range(max_retries)` (session_manager lines
183-210): on ThrottlingException with `attempt < max_retries - 1`, sleep
`retry_delay * 2 ** attempt` and continue; on any other ClientError, or on the
last throttled attempt, re-raise; on success, break. -/
def dispatchGo (outcome : Nat → DispatchOutcome) (retry_delay max_retries : Nat) :
    List Nat → List Nat → RetryResult
  | [], delays => { attempts := max_retries, delays := delays, succeeded := false }
  | attempt :: rest, delays =>
      match outcome attempt with
      | .success => { attempts := attempt + 1, delays := delays, succeeded := true }
      | .throttle =>
          if attempt < max_retries - 1 then
            dispatchGo outcome retry_delay max_retries rest
              (delays ++ [retry_delay * 2 ^ attempt])
          else { attempts := attempt + 1, delays := delays, succeeded := false }
      | .otherError _ => { attempts := attempt + 1, delays := delays, succeeded := false }

/-- The dispatch retry loop with the source's constants `max_retries = 3`,
`retry_delay = 2` (lines 180-181); `range(3) = [0, 1, 2]`. -/
def invoke_with_retry (outcome : Nat → DispatchOutcome) : RetryResult :=
  dispatchGo outcome 2 3 [0, 1, 2] []

/-! ## Strategy B: the whole `invoke_bedrock_agent` call and its handler -/

/-- The delegated-planner environment configuration
(`BEDROCK_AGENT_ID` / `BEDROCK_AGENT_ALIAS_ID`; `none` = unset variable). -/
structure WorkflowConfig where
  agent_id : Option String
  agent_alias_id : Option String
deriving DecidableEq, Repr

/-- Python truthiness test `not x` for an optional environment string:
true for an unset variable and for the empty string. -/
def pythonFalsy : Option String → Bool
  | none => true
  | some s => s == ""

/-- Message of the `ValueError` raised when the agent ids are unset (line 140). -/
def notConfiguredMessage : String :=
  "Bedrock Agent not configured. Please run setup-agentcore.py script."

/-- Message of the `ValueError` raised on placeholder ids (line 143). -/
def placeholderMessage : String :=
  "Bedrock Agent placeholders detected. Please run setup-agentcore.py to configure actual agent."

/-- Result of one background run of `invoke_bedrock_agent`.
`configFailure` is the `ValueError` raised before any `invoke_agent` call;
`dispatchFailure` is the ClientError propagated out of the retry loop;
`streamFailure` is the re-raised stream error (after the loop's `except`
block updated the session); `completed` is the normal return after the
post-stream reconciliation. -/
inductive WorkflowOutcome where
  | configFailure (msg : String)
  | dispatchFailure (msg : String) (session : Session)
  | streamFailure (st : StreamState) (msg : String)
  | completed (st : StreamState)
deriving DecidableEq, Repr

/-- The loop state at line 218-235, just before the `for event` loop:
`agent_events = []`, `last_update_time = time.time()` (modelled as `t0`), and
the session as left by the two initial PROCESSING updates (progress 5 and 10,
lines 149 and 196). -/
def initialStreamState (session : Session) (t0 : ℤ) : StreamState :=
  { session := session
    full_response := ""
    tool_calls := []
    action_group_invocations := 0
    chunks_received := 0
    agent_events := []
    last_update_time := t0
    eventWrites := []
    progressWrites := [5, 10]
    finalEventsWrite := none }

/-- `invoke_bedrock_agent` (session_manager lines 129-465).  Parameters model
the environment: `dispatch` gives each `invoke_agent` attempt's outcome,
`events` is the timestamped event stream of the successful call, `t0` the
clock when stream processing starts, and `document_urls_read` the
`document_urls` list found by the reconciliation's re-read (the generator
steps invoked by the agent append to it concurrently with this loop). -/
def invoke_bedrock_agent (cfg : WorkflowConfig) (now : String) (s : Session)
    (dispatch : Nat → DispatchOutcome) (dispatchErrorMsg : String)
    (events : List (ℤ × StreamEvent)) (t0 : ℤ)
    (document_urls_read : List String) : WorkflowOutcome :=
  if pythonFalsy cfg.agent_id || pythonFalsy cfg.agent_alias_id then
    .configFailure notConfiguredMessage
  else if cfg.agent_id == some "PLACEHOLDER_AGENT_ID" || cfg.agent_alias_id == some "PLACEHOLDER_ALIAS_ID" then
    .configFailure placeholderMessage
  else
    let s1 := update_session_status s now "PROCESSING" (some "Starting agent workflow") (some 5) none
    let retry := invoke_with_retry dispatch
    if retry.succeeded then
      let s2 := update_session_status s1 now "PROCESSING" (some "Agent workflow started") (some 10) none
      match processStream now (initialStreamState s2 t0) events with
      | .ok st => .completed (finalUpdate now document_urls_read st)
      | .error (st, msg) => .streamFailure (handleStreamError now st msg) msg
    else
      .dispatchFailure dispatchErrorMsg s1

/-- The handler's `PROCESS_AGENT_WORKFLOW` branch (session_manager lines
526-589): run `invoke_bedrock_agent`; a `ValueError` is recorded as ERROR with
stage "Configuration error", any other exception as ERROR with stage "Agent
workflow error"; returns the final session record and the HTTP-ish status
code of the background invocation. -/
def process_agent_workflow (cfg : WorkflowConfig) (now : String) (s : Session)
    (dispatch : Nat → DispatchOutcome) (dispatchErrorMsg : String)
    (events : List (ℤ × StreamEvent)) (t0 : ℤ)
    (document_urls_read : List String) : Session × Nat :=
  match invoke_bedrock_agent cfg now s dispatch dispatchErrorMsg events t0 document_urls_read with
  | .completed st => (st.session, 200)
  | .configFailure msg =>
      (update_session_status s now "ERROR" (some "Configuration error") none (some msg), 500)
  | .dispatchFailure msg s' =>
      (update_session_status s' now "ERROR" (some "Agent workflow error") none (some msg), 500)
  | .streamFailure st msg =>
      (update_session_status st.session now "ERROR" (some "Agent workflow error") none (some msg), 500)

/-! ## HTTP surface -/

/-- The sessions table: DynamoDB modelled as an association list keyed by
session id; `put_item` prepends (later bindings shadow earlier ones, as a
keyed overwrite does). -/
def SessionStore := List (String × Session)

/-- `get_item` on the sessions table. -/
def store_get (store : SessionStore) (session_id : String) : Option Session :=
  (List.find? (fun p => p.1 == session_id) store).map (fun p => p.2)

/-- The parsed JSON body of `POST /api/submit-assessment`; `none` models an
absent key (the code tests `'client_name' not in body`). -/
structure SubmitBody where
  client_name : Option String
  project_name : Option String
  industry : Option String
  requirements : Option String
  duration : Option String
  team_size : Option Nat
deriving DecidableEq, Repr

/-- The `POST /api/submit-assessment` branch of `handler` (session_manager
lines 599-648): validate, create the session (PENDING), schedule the async
workflow (`dispatch_ok` tells whether the fire-and-forget `invoke` call
succeeded), and answer.  Returns (HTTP status, new store, session id of the
response, status string of the response body). -/
def submit_assessment (store : SessionStore) (body : SubmitBody)
    (new_id now : String) (dispatch_ok : Bool) (dispatch_err : String) :
    Nat × SessionStore × Option String × Option String :=
  if body.client_name.isNone || body.requirements.isNone then
    (400, store, none, none)
  else
    let s := create_session new_id now (body.client_name.getD "")
      (body.project_name.getD "") (body.industry.getD "")
      (body.requirements.getD "") (body.duration.getD "") (body.team_size.getD 1)
    let store1 : SessionStore := (new_id, s) :: store
    if dispatch_ok then
      (200, store1, some new_id, some "PENDING")
    else
      let s' := update_session_status s now "ERROR" none none
        (some ("Failed to start async workflow: " ++ dispatch_err))
      ((500 : Nat), ((new_id, s') :: store1 : SessionStore), some new_id, none)

/-- The `GET /api/agent-status/{id}` branch (lines 650-659): 200 with the
session view when found, else 404. -/
def agent_status (store : SessionStore) (session_id : String) : Nat × Option Session :=
  match store_get store session_id with
  | some s => (200, some s)
  | none => (404, none)

/-- Contiguous-substring test on character lists (Python's `in` on strings). -/
def listHasSub (needle : List Char) : List Char → Bool
  | [] => needle.isEmpty
  | c :: rest => needle.isPrefixOf (c :: rest) || listHasSub needle rest

/-- Python `'pptx' in url.lower()` (resp. `'sow'`): substring test on the
lowercased URL (lowercasing modelled per character; the URLs are ASCII). -/
def urlMatches (needle url : String) : Bool :=
  listHasSub needle.toList (url.toList.map Char.toLower)

/-- The `GET /api/results/{id}` branch (session_manager lines 661-674):
404 unless the session exists with a non-empty `document_urls`, else 200 with
`powerpoint_url` / `sow_url` the first URL whose lowercase form contains
"pptx" / "sow" (`none` models JSON null). -/
def results_endpoint (store : SessionStore) (session_id : String) :
    Nat × Option String × Option String :=
  match store_get store session_id with
  | some s =>
      if s.document_urls.isEmpty then (404, none, none)
      else
        (200,
         s.document_urls.find? (fun url => urlMatches "pptx" url),
         s.document_urls.find? (fun url => urlMatches "sow" url))
  | none => (404, none, none)

/-! ## Sample data used by witnesses and counterexamples -/

/-- A freshly created session (the record `create_session` writes for the
scenario body {client_name: Acme, requirements: Build a CRM}). -/
def samplePending : Session :=
  create_session "sid-1" "2024-01-01T00:00:00" "Acme" "" "" "Build a CRM" "" 1

/-- A session that has reached the terminal status COMPLETED with one
artifact and populated cost data. -/
def sampleCompleted : Session :=
  { samplePending with
    status := "COMPLETED"
    progress := 100
    cost_data := some "total_cost 120000"
    document_urls := ["https://bucket/sid-1/presentation.pptx"] }

/-- A correctly provisioned delegated-planner configuration. -/
def configuredCfg : WorkflowConfig :=
  { agent_id := some "AGENT123", agent_alias_id := some "ALIAS123" }

/-- The placeholder sentinel configuration shipped before provisioning. -/
def placeholderCfg : WorkflowConfig :=
  { agent_id := some "PLACEHOLDER_AGENT_ID", agent_alias_id := some "PLACEHOLDER_ALIAS_ID" }

/-! ## C4: terminal sessions and later step executions -/

/-- C4 counterexample: on a session whose status is COMPLETED, a subsequent
slide-generation step execution does NOT leave `status` and `document_urls`
unchanged, and a subsequent cost-calculation step does NOT leave `cost_data`
unchanged: the handlers have no terminal-state guard. -/
theorem C4_counterexample :
    ¬ ((powerpoint_generator_step sampleCompleted "https://bucket/sid-1/p2.pptx" "2024-01-01T01:00:00").status
          = sampleCompleted.status ∧
       (powerpoint_generator_step sampleCompleted "https://bucket/sid-1/p2.pptx" "2024-01-01T01:00:00").document_urls
          = sampleCompleted.document_urls ∧
       (cost_calculator_step sampleCompleted "recalculated" "2024-01-01T01:00:00").cost_data
          = sampleCompleted.cost_data) := by
  decide

/-- C4 (amended): the step handlers have no terminal-state guard.  Even when a
session's status is COMPLETED or ERROR, a subsequent step execution overwrites
`status` with the step's own marker, the generator steps append their URL to
`document_urls`, and the cost step overwrites `cost_data`; earlier
`document_urls` entries are preserved (appends never drop them) and the steps
not responsible for a field leave that field alone. -/
theorem C4_no_terminal_guard (s : Session) (url c now : String)
    (_h : s.status = "COMPLETED" ∨ s.status = "ERROR") :
    (powerpoint_generator_step s url now).status = "POWERPOINT_GENERATED" ∧
    (powerpoint_generator_step s url now).document_urls = s.document_urls ++ [url] ∧
    (powerpoint_generator_step s url now).cost_data = s.cost_data ∧
    (sow_generator_step s url now).status = "SOW_GENERATED" ∧
    (sow_generator_step s url now).document_urls = s.document_urls ++ [url] ∧
    (sow_generator_step s url now).cost_data = s.cost_data ∧
    (cost_calculator_step s c now).status = "COSTS_CALCULATED" ∧
    (cost_calculator_step s c now).cost_data = some c ∧
    (cost_calculator_step s c now).document_urls = s.document_urls := by
  simp [powerpoint_generator_step, sow_generator_step, cost_calculator_step]

/-- C4 witness: the amended statement applied to the concrete COMPLETED
session. -/
theorem C4_no_terminal_guard_witness :
    (powerpoint_generator_step sampleCompleted "u" "t").status = "POWERPOINT_GENERATED" ∧
    (powerpoint_generator_step sampleCompleted "u" "t").document_urls = sampleCompleted.document_urls ++ ["u"] ∧
    (powerpoint_generator_step sampleCompleted "u" "t").cost_data = sampleCompleted.cost_data ∧
    (sow_generator_step sampleCompleted "u" "t").status = "SOW_GENERATED" ∧
    (sow_generator_step sampleCompleted "u" "t").document_urls = sampleCompleted.document_urls ++ ["u"] ∧
    (sow_generator_step sampleCompleted "u" "t").cost_data = sampleCompleted.cost_data ∧
    (cost_calculator_step sampleCompleted "c" "t").status = "COSTS_CALCULATED" ∧
    (cost_calculator_step sampleCompleted "c" "t").cost_data = some "c" ∧
    (cost_calculator_step sampleCompleted "c" "t").document_urls = sampleCompleted.document_urls :=
  C4_no_terminal_guard sampleCompleted "u" "c" "t" (Or.inl rfl)

/-! ## C7: additive document-URL appends -/

/-- C7: both generation steps append to `document_urls` with
`list_append(if_not_exists(...))`, so whichever of the two completes first,
the final list contains both URLs (and every previously present URL). -/
theorem C7_appends_lose_nothing (s : Session) (ppt_url sow_url now1 now2 : String) :
    (ppt_url ∈ (sow_generator_step (powerpoint_generator_step s ppt_url now1) sow_url now2).document_urls ∧
     sow_url ∈ (sow_generator_step (powerpoint_generator_step s ppt_url now1) sow_url now2).document_urls ∧
     ∀ u ∈ s.document_urls,
       u ∈ (sow_generator_step (powerpoint_generator_step s ppt_url now1) sow_url now2).document_urls) ∧
    (ppt_url ∈ (powerpoint_generator_step (sow_generator_step s sow_url now1) ppt_url now2).document_urls ∧
     sow_url ∈ (powerpoint_generator_step (sow_generator_step s sow_url now1) ppt_url now2).document_urls ∧
     ∀ u ∈ s.document_urls,
       u ∈ (powerpoint_generator_step (sow_generator_step s sow_url now1) ppt_url now2).document_urls) := by
  simp [powerpoint_generator_step, sow_generator_step]
  constructor <;> intro u hu <;> simp [hu]

/-! ## C6: dispatch retry policy -/

/-- C6: when every `invoke_agent` attempt throttles, the call is attempted
exactly 3 times, the sleeps between attempts are 2 s then 4 s (base delay
doubled each time, strictly increasing), and the dispatch then fails; when the
first attempt raises a non-throttling error, it fails immediately after that
single attempt with no retry delay. -/
theorem C6_retry_policy (outcome : Nat → DispatchOutcome) :
    ((∀ n, outcome n = .throttle) →
      invoke_with_retry outcome =
        { attempts := 3, delays := [2, 2 * 2], succeeded := false } ∧
      List.Chain' (· < ·) (invoke_with_retry outcome).delays) ∧
    (∀ msg, outcome 0 = .otherError msg →
      invoke_with_retry outcome = { attempts := 1, delays := [], succeeded := false }) := by
  constructor
  · intro h
    have e : invoke_with_retry outcome =
        { attempts := 3, delays := [2, 2 * 2], succeeded := false } := by
      simp [invoke_with_retry, dispatchGo, h 0, h 1, h 2]
    refine ⟨e, ?_⟩
    rw [e]
    norm_num
  · intro msg h
    simp [invoke_with_retry, dispatchGo, h]

/-- C6 witness: the retry theorem at a concrete always-throttling oracle and a
concrete immediately-failing oracle. -/
theorem C6_retry_policy_witness :
    invoke_with_retry (fun _ => DispatchOutcome.throttle) =
      { attempts := 3, delays := [2, 2 * 2], succeeded := false } ∧
    invoke_with_retry (fun _ => DispatchOutcome.otherError "AccessDeniedException") =
      { attempts := 1, delays := [], succeeded := false } :=
  ⟨((C6_retry_policy (fun _ => DispatchOutcome.throttle)).1 (fun _ => rfl)).1,
   (C6_retry_policy (fun _ => DispatchOutcome.otherError "AccessDeniedException")).2
     "AccessDeniedException" rfl⟩

/-! ## C3: misconfigured delegated planner -/

/-- When the agent ids are unset/empty or placeholders, `invoke_bedrock_agent`
raises the corresponding `ValueError` before any `invoke_agent` attempt. -/
theorem invoke_configFailure (cfg : WorkflowConfig) (now dispatchErrorMsg : String)
    (s : Session) (dispatch : Nat → DispatchOutcome) (events : List (ℤ × StreamEvent))
    (t0 : ℤ) (urls : List String)
    (h : (pythonFalsy cfg.agent_id || pythonFalsy cfg.agent_alias_id
         || (cfg.agent_id == some "PLACEHOLDER_AGENT_ID")
         || (cfg.agent_alias_id == some "PLACEHOLDER_ALIAS_ID")) = true) :
    invoke_bedrock_agent cfg now s dispatch dispatchErrorMsg events t0 urls =
      .configFailure (if pythonFalsy cfg.agent_id || pythonFalsy cfg.agent_alias_id
        then notConfiguredMessage else placeholderMessage) := by
  by_cases h1 : (pythonFalsy cfg.agent_id || pythonFalsy cfg.agent_alias_id) = true
  · simp [invoke_bedrock_agent, h1]
  · have h1' : (pythonFalsy cfg.agent_id || pythonFalsy cfg.agent_alias_id) = false :=
      Bool.eq_false_iff.mpr h1
    have h2 : (cfg.agent_id == some "PLACEHOLDER_AGENT_ID"
        || cfg.agent_alias_id == some "PLACEHOLDER_ALIAS_ID") = true := by
      simp only [Bool.or_eq_true] at h ⊢
      rcases h with ((h | h) | h) | h
      · simp [h] at h1'
      · simp [h] at h1'
      · exact Or.inl h
      · exact Or.inr h
    simp [invoke_bedrock_agent, h1', h2]

/-- C3 counterexample: with the placeholder sentinel configuration, the
workflow handler marks the session ERROR (with stage "Configuration error");
there is no distinct terminal status CONFIGURATION_ERROR in the code. -/
theorem C3_counterexample :
    (process_agent_workflow placeholderCfg "2024-01-01T00:05:00" samplePending
        (fun _ => DispatchOutcome.success) "" [] 0 []).1.status = "ERROR" ∧
    (process_agent_workflow placeholderCfg "2024-01-01T00:05:00" samplePending
        (fun _ => DispatchOutcome.success) "" [] 0 []).1.status ≠ "CONFIGURATION_ERROR" := by
  decide

/-- C3 (amended): when the delegated-planner identifiers are absent/empty or
equal the placeholder sentinels, the run fails fast before any planner
invocation (`configFailure`; the result does not depend on the planner
environment at all), and the handler records the terminal status ERROR — not a
distinct CONFIGURATION_ERROR status — with `current_stage` set to
"Configuration error" and the ValueError text as the error message. -/
theorem C3_config_failfast (cfg : WorkflowConfig) (now dispatchErrorMsg : String)
    (s : Session) (dispatch : Nat → DispatchOutcome) (events : List (ℤ × StreamEvent))
    (t0 : ℤ) (urls : List String)
    (h : (pythonFalsy cfg.agent_id || pythonFalsy cfg.agent_alias_id
         || (cfg.agent_id == some "PLACEHOLDER_AGENT_ID")
         || (cfg.agent_alias_id == some "PLACEHOLDER_ALIAS_ID")) = true) :
    (∃ msg, invoke_bedrock_agent cfg now s dispatch dispatchErrorMsg events t0 urls =
        .configFailure msg ∧
      (process_agent_workflow cfg now s dispatch dispatchErrorMsg events t0 urls).1 =
        update_session_status s now "ERROR" (some "Configuration error") none (some msg)) ∧
    (∀ dispatch' events' t0' urls',
      process_agent_workflow cfg now s dispatch' dispatchErrorMsg events' t0' urls' =
        process_agent_workflow cfg now s dispatch dispatchErrorMsg events t0 urls) := by
  constructor
  · exact ⟨_, invoke_configFailure cfg now dispatchErrorMsg s dispatch events t0 urls h,
      by simp [process_agent_workflow,
        invoke_configFailure cfg now dispatchErrorMsg s dispatch events t0 urls h]⟩
  · intro dispatch' events' t0' urls'
    simp [process_agent_workflow,
      invoke_configFailure cfg now dispatchErrorMsg s dispatch events t0 urls h,
      invoke_configFailure cfg now dispatchErrorMsg s dispatch' events' t0' urls' h]

/-- C3 witness: the amended statement at the placeholder configuration. -/
theorem C3_config_failfast_witness :
    ∃ msg, invoke_bedrock_agent placeholderCfg "t" samplePending
        (fun _ => DispatchOutcome.success) "" [] 0 [] = .configFailure msg ∧
      (process_agent_workflow placeholderCfg "t" samplePending
          (fun _ => DispatchOutcome.success) "" [] 0 []).1 =
        update_session_status samplePending "t" "ERROR" (some "Configuration error")
          none (some msg) :=
  (C3_config_failfast placeholderCfg "t" "" samplePending
    (fun _ => DispatchOutcome.success) [] 0 [] (by decide)).1

/-! ## C9: submit-assessment validation -/

/-- C9: a submit body missing `client_name` or `requirements` yields a 400 and
leaves the store untouched, so polling any identifier that was not already a
session still answers 404; with both fields present the (dispatch-successful)
request answers 200 / "PENDING" and the store now holds the freshly created
record, whose status is PENDING. -/
theorem C9_submit_validation (store : SessionStore) (body : SubmitBody)
    (new_id now dispatch_err : String) (dispatch_ok : Bool) :
    ((body.client_name.isNone ∨ body.requirements.isNone) →
      (submit_assessment store body new_id now dispatch_ok dispatch_err).1 = 400 ∧
      (submit_assessment store body new_id now dispatch_ok dispatch_err).2.1 = store ∧
      ∀ sid, store_get store sid = none →
        (agent_status (submit_assessment store body new_id now dispatch_ok dispatch_err).2.1 sid).1 = 404) ∧
    (body.client_name.isSome → body.requirements.isSome →
      (submit_assessment store body new_id now true dispatch_err).1 = 200 ∧
      (submit_assessment store body new_id now true dispatch_err).2.2.2 = some "PENDING" ∧
      store_get (submit_assessment store body new_id now true dispatch_err).2.1 new_id =
        some (create_session new_id now (body.client_name.getD "") (body.project_name.getD "")
          (body.industry.getD "") (body.requirements.getD "") (body.duration.getD "")
          (body.team_size.getD 1)) ∧
      (create_session new_id now (body.client_name.getD "") (body.project_name.getD "")
        (body.industry.getD "") (body.requirements.getD "") (body.duration.getD "")
        (body.team_size.getD 1)).status = "PENDING") := by
  constructor
  · intro h
    have hb : (body.client_name.isNone || body.requirements.isNone) = true := by
      rcases h with h | h <;> simp [h]
    refine ⟨by simp [submit_assessment, hb], by simp [submit_assessment, hb], ?_⟩
    intro sid hsid
    simp [submit_assessment, hb, agent_status, hsid]
  · intro h1 h2
    have hb : (body.client_name.isNone || body.requirements.isNone) = false := by
      simp [Option.isNone_eq_false_iff, h1, h2]
    refine ⟨by simp [submit_assessment, hb], by simp [submit_assessment, hb], ?_, by
      simp [create_session]⟩
    simp [submit_assessment, hb, store_get]

/-- A submit body whose `requirements` key is absent. -/
def bodyMissingReq : SubmitBody :=
  { client_name := some "Acme", project_name := none, industry := none,
    requirements := none, duration := none, team_size := none }

/-- A submit body with both required keys present. -/
def bodyComplete : SubmitBody :=
  { bodyMissingReq with requirements := some "Build a CRM" }

/-- C9 witness: the validation theorem at a concrete body with `requirements`
missing and at a concrete complete body over the empty store. -/
theorem C9_submit_validation_witness :
    ((submit_assessment [] bodyMissingReq "sid-9" "t" true "").1 = 400 ∧
      (agent_status (submit_assessment [] bodyMissingReq "sid-9" "t" true "").2.1
        "sid-fabricated").1 = 404) ∧
    ((submit_assessment [] bodyComplete "sid-9" "t" true "").1 = 200 ∧
      (submit_assessment [] bodyComplete "sid-9" "t" true "").2.2.2 = some "PENDING") := by
  constructor
  · have h := (C9_submit_validation [] bodyMissingReq "sid-9" "t" "" true).1 (Or.inr rfl)
    exact ⟨h.1, h.2.2 "sid-fabricated" rfl⟩
  · have h := (C9_submit_validation [] bodyComplete "sid-9" "t" "" true).2 rfl rfl
    exact ⟨h.1, h.2.1⟩

/-! ## C10: results endpoint filename conventions -/

/-- C10: for an existing session with non-empty `document_urls`, the results
endpoint answers 200; `powerpoint_url` is the first URL whose lowercased text
contains "pptx" and `sow_url` the first containing "sow", and a convention
with no matching URL yields a null field while the response stays 200. -/
theorem C10_results_convention (store : SessionStore) (sid : String) (s : Session)
    (h1 : store_get store sid = some s) (h2 : s.document_urls ≠ []) :
    results_endpoint store sid =
      (200, s.document_urls.find? (fun url => urlMatches "pptx" url),
            s.document_urls.find? (fun url => urlMatches "sow" url)) ∧
    ((∀ u ∈ s.document_urls, urlMatches "pptx" u = false) →
      (results_endpoint store sid).2.1 = none) ∧
    ((∀ u ∈ s.document_urls, urlMatches "sow" u = false) →
      (results_endpoint store sid).2.2 = none) := by
  have he : s.document_urls.isEmpty = false := by
    cases hd : s.document_urls with
    | nil => exact absurd hd h2
    | cons a l => rfl
  refine ⟨by simp [results_endpoint, h1, he], ?_, ?_⟩ <;> intro hnone <;>
    simp [results_endpoint, h1, he, List.find?_eq_none] <;> intro u hu <;>
    simp [hnone u hu]

/-- A completed session with both artifact URLs, for the C10 witness. -/
def sampleDocsSession : Session :=
  { samplePending with
    status := "COMPLETED"
    progress := 100
    document_urls := ["https://bucket/sid-1/presentation.pptx", "https://bucket/sid-1/sow.docx"] }

/-- C10 witness: the convention theorem on a concrete store. -/
theorem C10_results_convention_witness :
    results_endpoint [("sid-1", sampleDocsSession)] "sid-1" =
      (200, some "https://bucket/sid-1/presentation.pptx", some "https://bucket/sid-1/sow.docx") := by
  have h := (C10_results_convention [("sid-1", sampleDocsSession)] "sid-1"
    sampleDocsSession (by rfl) (by decide)).1
  rw [h]
  decide

/-! ## Inverting a successful Strategy B run -/

/-- The session as left by the two initial PROCESSING updates of
`invoke_bedrock_agent` (progress 5 then 10). -/
def sessionAfterDispatch (s : Session) (now : String) : Session :=
  update_session_status (update_session_status s now "PROCESSING"
    (some "Starting agent workflow") (some 5) none) now "PROCESSING"
    (some "Agent workflow started") (some 10) none

/-- A `completed` outcome comes from a successful pass of the event loop
followed by the reconciliation. -/
theorem completed_inv (cfg : WorkflowConfig) (now dispatchErrorMsg : String) (s : Session)
    (dispatch : Nat → DispatchOutcome) (events : List (ℤ × StreamEvent)) (t0 : ℤ)
    (urls : List String) (st : StreamState)
    (h : invoke_bedrock_agent cfg now s dispatch dispatchErrorMsg events t0 urls = .completed st) :
    ∃ st1, processStream now (initialStreamState (sessionAfterDispatch s now) t0) events = .ok st1 ∧
      st = finalUpdate now urls st1 := by
  simp only [invoke_bedrock_agent] at h
  split at h
  · simp at h
  · split at h
    · simp at h
    · split at h
      · split at h
        next st1 heq =>
          exact ⟨st1, heq, by simpa [sessionAfterDispatch] using h.symm⟩
        next p heq => simp at h
      · simp at h

/-- Field view of the reconciliation outcome: COMPLETED with progress 100
when the re-read `document_urls` is non-empty, otherwise ERROR with the
no-documents message; the audit fields pass through and the final
`agent_events` write carries the whole buffer. -/
theorem finalUpdate_fields (now : String) (urls : List String) (st : StreamState) :
    ((finalUpdate now urls st).session.status =
      (if 0 < urls.length then "COMPLETED" else "ERROR")) ∧
    (finalUpdate now urls st).session.document_urls = urls ∧
    (0 < urls.length → (finalUpdate now urls st).session.progress = 100) ∧
    (urls.length = 0 → (finalUpdate now urls st).session.error_message = some noDocumentsMessage) ∧
    (finalUpdate now urls st).progressWrites = st.progressWrites ∧
    (finalUpdate now urls st).eventWrites = st.eventWrites ∧
    (finalUpdate now urls st).finalEventsWrite = some st.agent_events := by
  unfold finalUpdate
  split
  next hp =>
    refine ⟨by simp [update_session_status, hp], by simp [update_session_status],
      fun _ => by simp [update_session_status],
      fun h0 => absurd hp (by simp [h0]), rfl, rfl, rfl⟩
  next hp => simp [update_session_status, hp]

/-! ## C1: post-hoc reconciliation -/

/-- C1: on a Strategy B run whose event stream completes without a stream
error, the orchestrator re-reads `document_urls` and only sets COMPLETED when
the re-read list is non-empty; an empty list forces ERROR with the
no-documents message, so a COMPLETED status implies at least one artifact
URL, whatever the planner's narrative claimed. -/
theorem C1_reconciliation (cfg : WorkflowConfig) (now dispatchErrorMsg : String)
    (s : Session) (dispatch : Nat → DispatchOutcome) (events : List (ℤ × StreamEvent))
    (t0 : ℤ) (urls : List String) (st : StreamState)
    (h : invoke_bedrock_agent cfg now s dispatch dispatchErrorMsg events t0 urls = .completed st) :
    (st.session.status = "COMPLETED" → 1 ≤ urls.length ∧ st.session.document_urls = urls) ∧
    (0 < urls.length → st.session.status = "COMPLETED") ∧
    (urls = [] → st.session.status = "ERROR" ∧
      st.session.error_message = some noDocumentsMessage) := by
  obtain ⟨st1, heq, rfl⟩ := completed_inv cfg now dispatchErrorMsg s dispatch events t0 urls st h
  obtain ⟨h1, h2, h3, h4, -⟩ := finalUpdate_fields now urls st1
  by_cases hp : 0 < urls.length
  · rw [if_pos hp] at h1
    exact ⟨fun _ => ⟨hp, h2⟩, fun _ => h1, fun hnil => by simp [hnil] at hp⟩
  · have hnil : urls = [] := List.length_eq_zero.mp (Nat.eq_zero_of_not_pos hp)
    rw [if_neg hp] at h1
    refine ⟨fun hc => absurd (h1 ▸ hc) (by decide), fun hp' => absurd hp' hp,
      fun _ => ⟨h1, h4 (by simp [hnil])⟩⟩

/-- Projection of a `completed` outcome's loop state (used to state closed
witnesses; other outcomes give a fixed dummy state). -/
def completedStateOf : WorkflowOutcome → StreamState
  | .completed st => st
  | .streamFailure st _ => st
  | _ => initialStreamState samplePending 0

/-- C1 witness: a concrete run whose re-read found one artifact URL. -/
theorem C1_reconciliation_witness :
    1 ≤ (["https://bucket/sid-1/presentation.pptx"] : List String).length ∧
    (completedStateOf (invoke_bedrock_agent configuredCfg "t" samplePending
        (fun _ => DispatchOutcome.success) "" [] 0
        ["https://bucket/sid-1/presentation.pptx"])).session.document_urls =
      ["https://bucket/sid-1/presentation.pptx"] :=
  (C1_reconciliation configuredCfg "t" "" samplePending (fun _ => DispatchOutcome.success)
    [] 0 ["https://bucket/sid-1/presentation.pptx"] _ rfl).1 (by decide)

/-! ## C2: no awaiting-input terminal status -/

/-- C2 counterexample: a Strategy B stream that ends with the (unrecognized)
awaiting-input signal finishes with status ERROR — the code never produces an
AWAITING_INPUT status. -/
theorem C2_counterexample :
    (process_agent_workflow configuredCfg "t" samplePending (fun _ => DispatchOutcome.success)
        "" [(0, StreamEvent.returnControl)] 0 []).1.status = "ERROR" ∧
    (process_agent_workflow configuredCfg "t" samplePending (fun _ => DispatchOutcome.success)
        "" [(0, StreamEvent.returnControl)] 0 []).1.status ≠ "AWAITING_INPUT" := by
  decide

/-- C2 (amended): the event loop has no branch for an awaiting-input terminal
signal (it is skipped like any unrecognized shape), and every background run
ends with session status COMPLETED or ERROR; in particular the status
AWAITING_INPUT is never reached. -/
theorem C2_no_awaiting_input (cfg : WorkflowConfig) (now dispatchErrorMsg : String)
    (s : Session) (dispatch : Nat → DispatchOutcome) (events : List (ℤ × StreamEvent))
    (t0 : ℤ) (urls : List String) :
    ((process_agent_workflow cfg now s dispatch dispatchErrorMsg events t0 urls).1.status = "COMPLETED" ∨
     (process_agent_workflow cfg now s dispatch dispatchErrorMsg events t0 urls).1.status = "ERROR") ∧
    (process_agent_workflow cfg now s dispatch dispatchErrorMsg events t0 urls).1.status ≠ "AWAITING_INPUT" := by
  have hst : (process_agent_workflow cfg now s dispatch dispatchErrorMsg events t0 urls).1.status = "COMPLETED" ∨
      (process_agent_workflow cfg now s dispatch dispatchErrorMsg events t0 urls).1.status = "ERROR" := by
    cases ho : invoke_bedrock_agent cfg now s dispatch dispatchErrorMsg events t0 urls with
    | configFailure msg =>
        right; simp [process_agent_workflow, ho, update_session_status]
    | dispatchFailure msg s' =>
        right; simp [process_agent_workflow, ho, update_session_status]
    | streamFailure st msg =>
        right; simp [process_agent_workflow, ho, update_session_status]
    | completed st =>
        obtain ⟨st1, heq, hfin⟩ :=
          completed_inv cfg now dispatchErrorMsg s dispatch events t0 urls st ho
        have h1 := (finalUpdate_fields now urls st1).1
        by_cases hp : 0 < urls.length
        · left
          simp [process_agent_workflow, ho, hfin, h1, hp]
        · right
          simp [process_agent_workflow, ho, hfin, h1, hp]
  refine ⟨hst, ?_⟩
  rcases hst with h | h <;> rw [h] <;> decide

/-! ## C5: progress writes -/

/-- Stage name announced by a tool-call event, if any. -/
def toolName : StreamEvent → Option String
  | .toolCall ag _ => some ag
  | _ => none

/-- Action-group names of the tool-call events of a stream, in arrival
order. -/
def toolCallNames (events : List (ℤ × StreamEvent)) : List String :=
  events.filterMap (fun e => toolName e.2)

/-- The progress values line 287 computes for consecutive tool calls, `k`
being the number of invocations seen before: the fixed table value for a
known stage, `15 + invocations * 10` for an unknown one. -/
def progressSeq (k : Nat) : List String → List Int
  | [] => []
  | ag :: rest =>
      (stage_progress ag).getD ((15 + (k + 1) * 10 : Nat) : Int) :: progressSeq (k + 1) rest

/-- `progressSeq` splits over appended name lists. -/
theorem progressSeq_append (k : Nat) (xs ys : List String) :
    progressSeq k (xs ++ ys) = progressSeq k xs ++ progressSeq (k + xs.length) ys := by
  induction xs generalizing k with
  | nil => simp [progressSeq]
  | cons a l ih =>
      simp only [List.cons_append, progressSeq, List.append_eq, List.length_cons, ih (k + 1)]
      have harith : k + 1 + l.length = k + (l.length + 1) := by omega
      rw [harith]

/-- One loop iteration appends exactly the progress write of its tool call
(if any) and bumps the invocation count accordingly. -/
theorem processEvent_audit (now : String) (st : StreamState) (t : ℤ) (ev : StreamEvent)
    (st2 : StreamState) (h : processEvent now st t ev = .ok st2) :
    st2.progressWrites =
      st.progressWrites ++ progressSeq st.action_group_invocations (toolName ev).toList ∧
    st2.action_group_invocations =
      st.action_group_invocations + (toolName ev).toList.length := by
  cases ev with
  | chunk text =>
      simp only [processEvent] at h
      split at h <;> (injection h with h; subst h; simp [toolName, progressSeq])
  | toolCall ag fn =>
      simp only [processEvent] at h
      split at h <;> (injection h with h; subst h; simp [toolName, progressSeq])
  | toolResult text =>
      injection h with h; subst h; simp [toolName, progressSeq]
  | finalResponse text =>
      injection h with h; subst h; simp [toolName, progressSeq]
  | rationale text =>
      injection h with h; subst h; simp [toolName, progressSeq]
  | throttling =>
      injection h with h; subst h; simp [toolName, progressSeq]
  | internalServerError msg => exact absurd h (by simp [processEvent])
  | validationError msg => exact absurd h (by simp [processEvent])
  | returnControl =>
      injection h with h; subst h; simp [toolName, progressSeq]

/-- The loop's `progress` writes are exactly the `progressSeq` of the
announced stage names, appended to whatever was written before. -/
theorem processStream_progressWrites (now : String) (events : List (ℤ × StreamEvent))
    (st st' : StreamState) (h : processStream now st events = .ok st') :
    st'.progressWrites =
      st.progressWrites ++ progressSeq st.action_group_invocations (toolCallNames events) ∧
    st'.action_group_invocations =
      st.action_group_invocations + (toolCallNames events).length := by
  induction events generalizing st with
  | nil =>
      simp only [processStream] at h
      injection h with h
      subst h
      simp [toolCallNames, progressSeq]
  | cons e rest ih =>
      obtain ⟨t, ev⟩ := e
      simp only [processStream] at h
      cases hpe : processEvent now st t ev with
      | error msg =>
          rw [hpe] at h
          exact absurd h (by simp)
      | ok st2 =>
          rw [hpe] at h
          simp only [] at h
          obtain ⟨h1, h2⟩ := ih _ h
          obtain ⟨g1, g2⟩ := processEvent_audit now st t ev st2 hpe
          have hn : toolCallNames ((t, ev) :: rest) =
              (toolName ev).toList ++ toolCallNames rest := by
            cases ev <;> simp [toolCallNames, toolName, List.filterMap_cons]
          constructor
          · rw [hn, progressSeq_append, h1, g1, g2, List.append_assoc]
          · rw [hn, h2, g2, List.length_append]
            omega

/-- The table value of a known stage name. -/
def stageValue (ag : String) : Int := (stage_progress ag).getD 0

/-- The canonical workflow order of the five known stages, in the order the
instruction prompt asks the planner to run them. -/
def canonicalStages : List String :=
  ["RequirementsAnalyzer", "CostCalculator", "TemplateRetriever",
   "PowerPointGenerator", "SOWGenerator"]

/-- Over known stage names the written progress is the table value,
independent of the invocation count. -/
theorem progressSeq_of_known (k : Nat) (names : List String)
    (h : ∀ ag ∈ names, (stage_progress ag).isSome) :
    progressSeq k names = names.map stageValue := by
  induction names generalizing k with
  | nil => simp [progressSeq]
  | cons a l ih =>
      obtain ⟨v, hv⟩ := Option.isSome_iff_exists.mp (h a (by simp))
      simp [progressSeq, stageValue, hv, ih (k + 1) (fun x hx => h x (by simp [hx]))]

/-- C5 counterexample: tool-call events can arrive in any order the planner
chooses; announcing PowerPointGenerator before RequirementsAnalyzer makes the
loop write progress 80 and then 30 while the session is PROCESSING, so the
successively written progress values are not non-decreasing. -/
theorem C5_counterexample :
    (completedStateOf (invoke_bedrock_agent configuredCfg "t" samplePending
        (fun _ => DispatchOutcome.success) ""
        [(0, StreamEvent.toolCall "PowerPointGenerator" "powerpointgenerator"),
         (0, StreamEvent.toolCall "RequirementsAnalyzer" "requirementsanalyzer")]
        0 [])).progressWrites = [5, 10, 80, 30] ∧
    ¬ (completedStateOf (invoke_bedrock_agent configuredCfg "t" samplePending
        (fun _ => DispatchOutcome.success) ""
        [(0, StreamEvent.toolCall "PowerPointGenerator" "powerpointgenerator"),
         (0, StreamEvent.toolCall "RequirementsAnalyzer" "requirementsanalyzer")]
        0 [])).progressWrites.Pairwise (· ≤ ·) := by
  have e : (completedStateOf (invoke_bedrock_agent configuredCfg "t" samplePending
      (fun _ => DispatchOutcome.success) ""
      [(0, StreamEvent.toolCall "PowerPointGenerator" "powerpointgenerator"),
       (0, StreamEvent.toolCall "RequirementsAnalyzer" "requirementsanalyzer")]
      0 [])).progressWrites = [5, 10, 80, 30] := by decide
  refine ⟨e, ?_⟩
  rw [e]
  intro hp
  have h80 := (List.pairwise_cons.mp (List.pairwise_cons.mp hp).2).2
  have := (List.pairwise_cons.mp h80).1 30 (by simp)
  omega

/-- C5 (amended): the written progress values are the fixed table entries for
known stages (unknown stages get the incremental estimate `15 + 10 * count`),
and they are non-decreasing and within 0-100 whenever the announced stages
arrive in canonical workflow order (a subsequence of RequirementsAnalyzer,
CostCalculator, TemplateRetriever, PowerPointGenerator, SOWGenerator); for
out-of-order announcements the written progress can decrease. -/
theorem C5_progress_monotone_in_order (cfg : WorkflowConfig)
    (now dispatchErrorMsg : String) (s : Session) (dispatch : Nat → DispatchOutcome)
    (events : List (ℤ × StreamEvent)) (t0 : ℤ) (urls : List String) (st : StreamState)
    (h : invoke_bedrock_agent cfg now s dispatch dispatchErrorMsg events t0 urls = .completed st)
    (horder : List.Sublist (toolCallNames events) canonicalStages) :
    st.progressWrites.Pairwise (· ≤ ·) ∧
    ∀ p ∈ st.progressWrites, 0 ≤ p ∧ p ≤ 100 := by
  obtain ⟨st1, heq, rfl⟩ :=
    completed_inv cfg now dispatchErrorMsg s dispatch events t0 urls st h
  have hpw := (finalUpdate_fields now urls st1).2.2.2.2.1
  obtain ⟨h1, -⟩ := processStream_progressWrites now events _ st1 heq
  have hknown : ∀ ag ∈ toolCallNames events, (stage_progress ag).isSome := by
    intro ag hag
    have hmem : ag ∈ canonicalStages := horder.subset hag
    simp only [canonicalStages, List.mem_cons, List.not_mem_nil, or_false] at hmem
    rcases hmem with rfl | rfl | rfl | rfl | rfl <;> decide
  rw [progressSeq_of_known _ _ hknown] at h1
  have hsub : List.Sublist (([5, 10] : List Int) ++ (toolCallNames events).map stageValue)
      (([5, 10] : List Int) ++ canonicalStages.map stageValue) :=
    (horder.map stageValue).append_left [5, 10]
  have hcan : (([5, 10] : List Int) ++ canonicalStages.map stageValue) =
      [5, 10, 30, 50, 60, 80, 95] := by decide
  rw [hcan] at hsub
  have hpair : ([5, 10, 30, 50, 60, 80, 95] : List Int).Pairwise (· ≤ ·) := by
    norm_num [List.pairwise_cons]
  have hbound : ∀ p ∈ ([5, 10, 30, 50, 60, 80, 95] : List Int), 0 ≤ p ∧ p ≤ 100 := by
    decide
  have hini : (initialStreamState (sessionAfterDispatch s now) t0).progressWrites = [5, 10] := rfl
  rw [hpw, h1, hini]
  exact ⟨List.Pairwise.sublist hsub hpair, fun p hp => hbound p (hsub.subset hp)⟩

/-- C5 witness: the amended monotonicity statement on a concrete in-order run
(RequirementsAnalyzer then CostCalculator). -/
theorem C5_progress_monotone_in_order_witness :
    (completedStateOf (invoke_bedrock_agent configuredCfg "t" samplePending
        (fun _ => DispatchOutcome.success) ""
        [(0, StreamEvent.toolCall "RequirementsAnalyzer" "requirementsanalyzer"),
         (0, StreamEvent.toolCall "CostCalculator" "costcalculator")]
        0 ["https://bucket/sid-1/presentation.pptx"])).progressWrites.Pairwise (· ≤ ·) ∧
    ∀ p ∈ (completedStateOf (invoke_bedrock_agent configuredCfg "t" samplePending
        (fun _ => DispatchOutcome.success) ""
        [(0, StreamEvent.toolCall "RequirementsAnalyzer" "requirementsanalyzer"),
         (0, StreamEvent.toolCall "CostCalculator" "costcalculator")]
        0 ["https://bucket/sid-1/presentation.pptx"])).progressWrites, 0 ≤ p ∧ p ≤ 100 :=
  C5_progress_monotone_in_order configuredCfg "t" "" samplePending
    (fun _ => DispatchOutcome.success)
    [(0, StreamEvent.toolCall "RequirementsAnalyzer" "requirementsanalyzer"),
     (0, StreamEvent.toolCall "CostCalculator" "costcalculator")]
    0 ["https://bucket/sid-1/presentation.pptx"] _ rfl (by decide)

/-! ## C8: batched event flushes -/

/-- The `agent_events` entries a burst of chunk events buffers, in arrival
order. -/
def chunkEvents : List (ℤ × StreamEvent) → List AgentEvent
  | [] => []
  | (_, StreamEvent.chunk text) :: rest => AgentEvent.chunk text :: chunkEvents rest
  | _ :: rest => chunkEvents rest

/-- A burst of chunk events that all arrive within `update_interval` of the
last store write triggers no rate-limited write at all: the events stay in the
in-memory buffer, appended in arrival order. -/
theorem processStream_burst (now : String) (events : List (ℤ × StreamEvent)) :
    ∀ st st' : StreamState,
      (∀ e ∈ events, ∃ text, e.2 = StreamEvent.chunk text) →
      (∀ e ∈ events, e.1 ≤ st.last_update_time + update_interval) →
      processStream now st events = .ok st' →
      st'.eventWrites = st.eventWrites ∧
      st'.agent_events = st.agent_events ++ chunkEvents events ∧
      st'.last_update_time = st.last_update_time := by
  induction events with
  | nil =>
      intro st st' _ _ h
      simp only [processStream] at h
      injection h with h
      subst h
      simp [chunkEvents]
  | cons e rest ih =>
      intro st st' hc ht h
      obtain ⟨t, ev⟩ := e
      have htext : ∃ text, ev = StreamEvent.chunk text :=
        hc (t, ev) (List.mem_cons_self _ _)
      obtain ⟨text, rfl⟩ := htext
      have hcond : ¬ (update_interval < t - st.last_update_time) := by
        have hb := ht (t, StreamEvent.chunk text) (List.mem_cons_self _ _)
        simp only at hb
        omega
      simp only [processStream] at h
      cases hpe : processEvent now st t (StreamEvent.chunk text) with
      | error msg =>
          rw [hpe] at h
          exact absurd h (by simp)
      | ok st2 =>
          simp only [hpe] at h
          simp only [processEvent] at hpe
          rw [if_neg hcond] at hpe
          injection hpe with hpe
          subst hpe
          have hrec := fun hcc htt => ih _ st' hcc htt h
          obtain ⟨i1, i2, i3⟩ := hrec
            (fun e he => hc e (List.mem_cons_of_mem _ he))
            (fun e he => ht e (List.mem_cons_of_mem _ he))
          refine ⟨i1, ?_, i3⟩
          rw [i2]
          simp [chunkEvents, List.append_assoc]

/-- Any two consecutive rate-limited `agent_events` writes of the loop are
separated by more than `update_interval`; `t0` is the clock at loop start. -/
theorem processStream_write_gaps (now : String) (events : List (ℤ × StreamEvent)) (t0 : ℤ) :
    ∀ st st' : StreamState,
      processStream now st events = .ok st' →
      List.Chain' (fun a b => update_interval < b - a) (t0 :: st.eventWrites.map Prod.fst) →
      (t0 :: st.eventWrites.map Prod.fst).getLast? = some st.last_update_time →
      List.Chain' (fun a b => update_interval < b - a) (t0 :: st'.eventWrites.map Prod.fst) ∧
      (t0 :: st'.eventWrites.map Prod.fst).getLast? = some st'.last_update_time := by
  induction events with
  | nil =>
      intro st st' h hchain hlast
      simp only [processStream] at h
      injection h with h
      subst h
      exact ⟨hchain, hlast⟩
  | cons e rest ih =>
      intro st st' h hchain hlast
      obtain ⟨t, ev⟩ := e
      have hstep : ∀ st2 : StreamState, processStream now st2 rest = .ok st' →
          st2.eventWrites = st.eventWrites →
          st2.last_update_time = st.last_update_time →
          List.Chain' (fun a b => update_interval < b - a) (t0 :: st'.eventWrites.map Prod.fst) ∧
          (t0 :: st'.eventWrites.map Prod.fst).getLast? = some st'.last_update_time := by
        intro st2 h2 hw hl
        exact ih st2 st' h2 (hw ▸ hchain) (by rw [hw, hl]; exact hlast)
      have hwrite : ∀ (st2 : StreamState), processStream now st2 rest = .ok st' →
          st2.eventWrites = st.eventWrites ++ [(t, st2.eventWrites.getLast?.elim [] Prod.snd)] →
          True := fun _ _ _ => trivial
      clear hwrite
      have hpush : ∀ (buf : List AgentEvent) (st2 : StreamState),
          processStream now st2 rest = .ok st' →
          st2.eventWrites = st.eventWrites ++ [(t, buf)] →
          st2.last_update_time = t →
          update_interval < t - st.last_update_time →
          List.Chain' (fun a b => update_interval < b - a) (t0 :: st'.eventWrites.map Prod.fst) ∧
          (t0 :: st'.eventWrites.map Prod.fst).getLast? = some st'.last_update_time := by
        intro buf st2 h2 hw hl hcond
        have hmap : t0 :: st2.eventWrites.map Prod.fst =
            (t0 :: st.eventWrites.map Prod.fst) ++ [t] := by
          simp [hw]
        have hchain2 : List.Chain' (fun a b => update_interval < b - a)
            (t0 :: st2.eventWrites.map Prod.fst) := by
          rw [hmap]
          refine List.chain'_append.mpr ⟨hchain, List.chain'_singleton t, ?_⟩
          intro x hx y hy
          rw [hlast] at hx
          simp only [Option.mem_def, Option.some.injEq] at hx
          simp only [List.head?_cons, Option.mem_def, Option.some.injEq] at hy
          subst hx
          subst hy
          exact hcond
        have hlast2 : (t0 :: st2.eventWrites.map Prod.fst).getLast? = some st2.last_update_time := by
          rw [hmap, hl, List.getLast?_append]
          rfl
        exact ih st2 st' h2 hchain2 hlast2
      simp only [processStream] at h
      cases hpe : processEvent now st t ev with
      | error msg =>
          rw [hpe] at h
          exact absurd h (by simp)
      | ok st2 =>
          simp only [hpe] at h
          cases ev with
          | chunk text =>
              simp only [processEvent] at hpe
              split at hpe
              next hcond =>
                injection hpe with hpe
                subst hpe
                exact hpush _ _ h rfl rfl hcond
              next hcond =>
                injection hpe with hpe
                subst hpe
                exact hstep _ h rfl rfl
          | toolCall ag fn =>
              simp only [processEvent] at hpe
              split at hpe
              next hcond =>
                injection hpe with hpe
                subst hpe
                exact hpush _ _ h rfl rfl hcond
              next hcond =>
                injection hpe with hpe
                subst hpe
                exact hstep _ h rfl rfl
          | toolResult text =>
              injection hpe with hpe
              subst hpe
              exact hstep _ h rfl rfl
          | finalResponse text =>
              injection hpe with hpe
              subst hpe
              exact hstep _ h rfl rfl
          | rationale text =>
              injection hpe with hpe
              subst hpe
              exact hstep _ h rfl rfl
          | throttling =>
              injection hpe with hpe
              subst hpe
              exact hstep _ h rfl rfl
          | internalServerError msg =>
              exact absurd hpe (by simp [processEvent])
          | validationError msg =>
              exact absurd hpe (by simp [processEvent])
          | returnControl =>
              injection hpe with hpe
              subst hpe
              exact hstep _ h rfl rfl

/-- C8: for a burst of N chunk events that all arrive within one flush
interval (1000 ms) of stream start, the loop performs no rate-limited store
write; the single unconditional post-stream write carries all N events in
arrival order.  Moreover, on any stream whatsoever, consecutive rate-limited
`agent_events` writes are separated by more than one flush interval — the
store is written at most once per interval, not once per event. -/
theorem C8_batched_flush (cfg : WorkflowConfig) (now dispatchErrorMsg : String)
    (s : Session) (dispatch : Nat → DispatchOutcome) (events : List (ℤ × StreamEvent))
    (t0 : ℤ) (urls : List String) (st : StreamState)
    (h : invoke_bedrock_agent cfg now s dispatch dispatchErrorMsg events t0 urls = .completed st)
    (hc : ∀ e ∈ events, ∃ text, e.2 = StreamEvent.chunk text)
    (ht : ∀ e ∈ events, e.1 ≤ t0 + update_interval) :
    st.eventWrites = [] ∧
    st.finalEventsWrite = some (chunkEvents events) ∧
    (∀ (events' : List (ℤ × StreamEvent)) (st' : StreamState),
      invoke_bedrock_agent cfg now s dispatch dispatchErrorMsg events' t0 urls = .completed st' →
      List.Chain' (fun a b => update_interval < b - a) (t0 :: st'.eventWrites.map Prod.fst)) := by
  obtain ⟨st1, heq, rfl⟩ :=
    completed_inv cfg now dispatchErrorMsg s dispatch events t0 urls st h
  obtain ⟨-, -, -, -, -, hW, hF⟩ := finalUpdate_fields now urls st1
  obtain ⟨b1, b2, -⟩ := processStream_burst now events _ st1 hc ht heq
  refine ⟨by rw [hW, b1]; rfl, by rw [hF, b2]; rfl, ?_⟩
  intro events' st' h'
  obtain ⟨st1', heq', rfl⟩ :=
    completed_inv cfg now dispatchErrorMsg s dispatch events' t0 urls st' h'
  have hg := (processStream_write_gaps now events' t0 _ st1' heq'
    (by simp [initialStreamState]) (by rfl)).1
  have hW' := (finalUpdate_fields now urls st1').2.2.2.2.2.1
  rw [hW']
  exact hg

/-- C8 witness: a two-chunk burst at 100 ms and 900 ms after a stream start
at 0 ends with no in-loop write and one final write holding both chunks in
order. -/
theorem C8_batched_flush_witness :
    (completedStateOf (invoke_bedrock_agent configuredCfg "t" samplePending
        (fun _ => DispatchOutcome.success) ""
        [(100, StreamEvent.chunk "Hello"), (900, StreamEvent.chunk " world")]
        0 ["https://bucket/sid-1/presentation.pptx"])).eventWrites = [] ∧
    (completedStateOf (invoke_bedrock_agent configuredCfg "t" samplePending
        (fun _ => DispatchOutcome.success) ""
        [(100, StreamEvent.chunk "Hello"), (900, StreamEvent.chunk " world")]
        0 ["https://bucket/sid-1/presentation.pptx"])).finalEventsWrite =
      some [AgentEvent.chunk "Hello", AgentEvent.chunk " world"] := by
  have hc : ∀ e ∈ [((100 : ℤ), StreamEvent.chunk "Hello"),
      ((900 : ℤ), StreamEvent.chunk " world")], ∃ text, e.2 = StreamEvent.chunk text := by
    intro e he
    simp only [List.mem_cons, List.not_mem_nil, or_false] at he
    rcases he with rfl | rfl
    · exact ⟨"Hello", rfl⟩
    · exact ⟨" world", rfl⟩
  have hres := C8_batched_flush configuredCfg "t" "" samplePending
    (fun _ => DispatchOutcome.success)
    [(100, StreamEvent.chunk "Hello"), (900, StreamEvent.chunk " world")]
    0 ["https://bucket/sid-1/presentation.pptx"] _ rfl hc (by decide)
  exact ⟨hres.1, hres.2.1⟩

end ScopeSmith
